import Mathlib

/-!
# Vulkan Application1 / main.cpp : the EngineHandler bootstrap

A shallow embedding of `EngineHandler` and `main` from
`src/Vulkan Application1/main.cpp`.

The window system (GLFW) and the graphics driver (Vulkan loader) are outside
the program.  They are represented by a `World` record holding what each
library call answers, and every library call the program makes is recorded,
in program order, in a trace of `Call` values.  Text written to `std::cout`
is recorded in the same trace, one entry per line.

A thrown `std::runtime_error` is an `Except.error` carrying its `what()`
text.  The only loop that need not terminate is `mainLoop`; it is embedded
with a fuel argument and answers `none` when the fuel runs out.
-/

namespace VulkanApplication1

namespace EngineHandler

/-! ## Library data passed across the boundary -/

/-- Handles (`GLFWwindow*`, `VkInstance`): `none` is the null or never assigned handle. -/
abbrev Handle := Option Nat

/-- The Vulkan header macro `VK_MAKE_VERSION(major, minor, patch)`: the three
numbers shifted and combined by bitwise or into a 32 bit value. -/
def VK_MAKE_VERSION (major minor patch : Nat) : Nat :=
  ((major <<< 22) ||| (minor <<< 12) ||| patch) % 2 ^ 32

/-- The Vulkan header constant `VK_API_VERSION_1_0`. -/
def VK_API_VERSION_1_0 : Nat := VK_MAKE_VERSION 1 0 0

/-- The Vulkan header constant `VK_STRUCTURE_TYPE_APPLICATION_INFO`. -/
def VK_STRUCTURE_TYPE_APPLICATION_INFO : Nat := 0

/-- The Vulkan header constant `VK_STRUCTURE_TYPE_INSTANCE_CREATE_INFO`. -/
def VK_STRUCTURE_TYPE_INSTANCE_CREATE_INFO : Nat := 1

/-- The Vulkan header constant `VK_SUCCESS` of type `VkResult`. -/
def VK_SUCCESS : Int := 0

/-- The Vulkan header constant `VK_EXT_DEBUG_REPORT_EXTENSION_NAME`. -/
def VK_EXT_DEBUG_REPORT_EXTENSION_NAME : String := "VK_EXT_debug_report"

/-- The GLFW header constant `GLFW_CLIENT_API`. -/
def GLFW_CLIENT_API : Nat := 0x00022001

/-- The GLFW header constant `GLFW_NO_API`. -/
def GLFW_NO_API : Nat := 0

/-- The GLFW header constant `GLFW_RESIZABLE`. -/
def GLFW_RESIZABLE : Nat := 0x00020003

/-- The GLFW header constant `GLFW_FALSE`. -/
def GLFW_FALSE : Nat := 0

/-- The C library constant `EXIT_SUCCESS`. -/
def EXIT_SUCCESS : Nat := 0

/-- The C library constant `EXIT_FAILURE`. -/
def EXIT_FAILURE : Nat := 1

/-- The fields of `VkApplicationInfo` that `createInstance` fills in. -/
structure VkApplicationInfo where
  sType : Nat
  pApplicationName : String
  applicationVersion : Nat
  pEngineName : String
  engineVersion : Nat
  apiVersion : Nat
  deriving DecidableEq, Repr

/-- The fields of `VkInstanceCreateInfo`.  A name array pointer is represented by
the list it points to, the null pointer of the zero initialised struct by `[]`. -/
structure VkInstanceCreateInfo where
  sType : Nat
  pApplicationInfo : VkApplicationInfo
  enabledLayerCount : Nat
  ppEnabledLayerNames : List String
  enabledExtensionCount : Nat
  ppEnabledExtensionNames : List String
  deriving DecidableEq, Repr

/-- The layers a driver enables for a request: the first `enabledLayerCount`
entries of the array `ppEnabledLayerNames`. -/
def VkInstanceCreateInfo.enabledLayers (ci : VkInstanceCreateInfo) : List String :=
  ci.ppEnabledLayerNames.take ci.enabledLayerCount

/-- The extensions a driver enables for a request: the first
`enabledExtensionCount` entries of the array `ppEnabledExtensionNames`. -/
def VkInstanceCreateInfo.enabledExtensions (ci : VkInstanceCreateInfo) : List String :=
  ci.ppEnabledExtensionNames.take ci.enabledExtensionCount

/-- One observable action of the program: a call into GLFW or Vulkan, or a line
written to `std::cout`. -/
inductive Call where
  | glfwWindowHint (hint value : Nat)
  | glfwCreateWindow (width height : Nat) (title : String)
  /-- The flag tells the two calls apart by their second argument: `false` for
  the call passing `nullptr`, `true` for the call passing `available_layers.data()`. -/
  | vkEnumerateInstanceLayerProperties (fill : Bool)
  | glfwGetRequiredInstanceExtensions
  | vkCreateInstance (createinfo : VkInstanceCreateInfo)
  | glfwWindowShouldClose (window : Handle)
  | glfwPollEvents
  | vkDestroyInstance (inst : Handle)
  | glfwDestroyWindow (window : Handle)
  | glfwTerminate
  | cout (line : String)
  deriving DecidableEq, Repr

/-- What the window system and the driver answer during one execution. -/
structure World where
  /-- Result of `glfwCreateWindow`; `none` is `NULL`. -/
  glfwCreateWindow : Handle
  /-- Layer names reported by `vkEnumerateInstanceLayerProperties`. -/
  available_layers : List String
  /-- Names reported by `glfwGetRequiredInstanceExtensions`. -/
  glfwExtensions : List String
  /-- The `VkResult` of `vkCreateInstance` for a given request. -/
  vkCreateInstance : VkInstanceCreateInfo → Int
  /-- The handle `vkCreateInstance` stores on success. -/
  instanceHandle : Nat
  /-- The value of the k-th call of `glfwWindowShouldClose`, counted from 0. -/
  glfwWindowShouldClose : Nat → Bool

/-! ## The class `EngineHandler` -/

/-- The build dependent and hard coded members of the class. -/
structure Config where
  WINDOW_WT : Nat
  WINDOW_HT : Nat
  WINDOW_NAME : String
  validationLayers : List String
  enableValidationLayers : Bool

/-- The member initialiser of `validationLayers`. -/
def validationLayers : List String :=
  [ "VK_LAYER_LUNARG_api_dump",
    "VK_LAYER_LUNARG_core_validation",
    "VK_LAYER_LUNARG_device_simulation",
    "VK_LAYER_LUNARG_monitor",
    "VK_LAYER_LUNARG_object_tracker",
    "VK_LAYER_LUNARG_parameter_validation",
    "VK_LAYER_LUNARG_screenshot",
    "VK_LAYER_LUNARG_standard_validation",
    "VK_LAYER_GOOGLE_threading",
    "VK_LAYER_GOOGLE_unique_objects",
    "VK_LAYER_LUNARG_vktrace",
    "VK_LAYER_NV_optimus",
    "VK_LAYER_RENDERDOC_Capture",
    "VK_LAYER_VALVE_steam_overlay" ]

/-- The class as compiled without `NDEBUG`. -/
def debugConfig : Config :=
  { WINDOW_WT := 800, WINDOW_HT := 600, WINDOW_NAME := "Bored",
    validationLayers := validationLayers, enableValidationLayers := true }

/-- The class as compiled with `NDEBUG`. -/
def releaseConfig : Config :=
  { WINDOW_WT := 800, WINDOW_HT := 600, WINDOW_NAME := "Bored",
    validationLayers := validationLayers, enableValidationLayers := false }

/-- The mutable members `window` and `instance`. -/
structure Members where
  window : Handle
  inst : Handle
  deriving DecidableEq, Repr

/-- A freshly constructed object: neither member has been assigned. -/
def Members.fresh : Members := { window := none, inst := none }

/-- What a member function leaves behind: the calls it made, the members, and
its return value or the exception it threw. -/
structure Outcome (α : Type) where
  trace : List Call
  members : Members
  result : Except String α

/-- The inner `for` of `checkValidationLayerSupport`: scan the available layers
and stop at the first whose name compares equal to `layerName`. -/
def layerFound (layerName : String) : List String → Bool
  | [] => false
  | layerProperties :: rest =>
    if layerName = layerProperties then true else layerFound layerName rest

/-- The line printed for a requested layer that was not found. -/
def notFoundLine (layerName : String) : String :=
  "layer " ++ layerName ++ " not found!"

/-- The line printed for an available layer after a failed check. -/
def availableLine (layerName : String) : String :=
  "\t" ++ layerName ++ " available"

/-- The outer `for` of `checkValidationLayerSupport`, threading `status` and the
lines printed so far. -/
def checkLoop (available_layers : List String) :
    List String → Bool → List Call → Bool × List Call
  | [], status, out => (status, out)
  | layerName :: rest, status, out =>
    let found := layerFound layerName available_layers
    let out1 := if !found then out ++ [Call.cout (notFoundLine layerName)] else out
    checkLoop available_layers rest (status && found) out1

/-- The member function `checkValidationLayerSupport`: the calls it makes and the value it returns. -/
def checkValidationLayerSupport (cfg : Config) (w : World) : List Call × Bool :=
  let enumerate := [Call.vkEnumerateInstanceLayerProperties false,
                    Call.vkEnumerateInstanceLayerProperties true]
  let (status, out) := checkLoop w.available_layers cfg.validationLayers true []
  let listing :=
    if !status then w.available_layers.map (fun l => Call.cout (availableLine l)) else []
  (enumerate ++ out ++ listing, status)

/-- The member function `getRequiredExtensions`, which no other function calls. -/
def getRequiredExtensions (cfg : Config) (w : World) : List Call × List String :=
  let extensions := w.glfwExtensions
  let extensions :=
    if cfg.enableValidationLayers then extensions ++ [VK_EXT_DEBUG_REPORT_EXTENSION_NAME]
    else extensions
  ([Call.glfwGetRequiredInstanceExtensions], extensions)

/-- The `VkApplicationInfo` built by `createInstance`. -/
def appinfo (cfg : Config) : VkApplicationInfo :=
  { sType := VK_STRUCTURE_TYPE_APPLICATION_INFO,
    pApplicationName := cfg.WINDOW_NAME,
    applicationVersion := VK_MAKE_VERSION 1 0 0,
    pEngineName := "NineCore",
    engineVersion := VK_MAKE_VERSION 1 0 0,
    apiVersion := VK_API_VERSION_1_0 }

/-- The `VkInstanceCreateInfo` built by `createInstance`, assignment by assignment. -/
def createinfo (cfg : Config) (w : World) : VkInstanceCreateInfo :=
  let ci : VkInstanceCreateInfo :=
    { sType := VK_STRUCTURE_TYPE_INSTANCE_CREATE_INFO,
      pApplicationInfo := appinfo cfg,
      enabledLayerCount := 0,
      ppEnabledLayerNames := [],
      enabledExtensionCount := 0,
      ppEnabledExtensionNames := [] }
  let ci :=
    if cfg.enableValidationLayers then
      { ci with enabledLayerCount := cfg.validationLayers.length % 2 ^ 32,
                ppEnabledLayerNames := cfg.validationLayers }
    else
      { ci with enabledLayerCount := 0 }
  let glfw_extensionCount := w.glfwExtensions.length
  let ci := { ci with enabledExtensionCount := glfw_extensionCount }
  let ci := { ci with ppEnabledExtensionNames := w.glfwExtensions }
  let ci := { ci with enabledLayerCount := 0 }
  ci

/-- The text of the exception thrown when a requested layer is missing. -/
def layersUnavailable : String := "Validation layers requested, but not all available!"

/-- The text of the exception thrown when `vkCreateInstance` does not succeed. -/
def instanceFailed : String := "Failed to create vulkan instance!"

/-- The member function `createInstance`. -/
def createInstance (cfg : Config) (w : World) (m : Members) : Outcome Unit :=
  let check : List Call × Bool :=
    if cfg.enableValidationLayers then checkValidationLayerSupport cfg w else ([], true)
  if cfg.enableValidationLayers && !check.2 then
    { trace := check.1, members := m, result := Except.error layersUnavailable }
  else
    let ci := createinfo cfg w
    let calls := check.1 ++ [Call.glfwGetRequiredInstanceExtensions, Call.vkCreateInstance ci]
    let res := w.vkCreateInstance ci
    if res ≠ VK_SUCCESS then
      { trace := calls, members := m, result := Except.error instanceFailed }
    else
      { trace := calls, members := { m with inst := some w.instanceHandle },
        result := Except.ok () }

/-- The member function `initWindow`: the result of `glfwCreateWindow` is stored unexamined. -/
def initWindow (cfg : Config) (w : World) (m : Members) : Outcome Unit :=
  { trace := [Call.glfwWindowHint GLFW_CLIENT_API GLFW_NO_API,
              Call.glfwWindowHint GLFW_RESIZABLE GLFW_FALSE,
              Call.glfwCreateWindow cfg.WINDOW_WT cfg.WINDOW_HT cfg.WINDOW_NAME],
    members := { m with window := w.glfwCreateWindow },
    result := Except.ok () }

/-- The member function `initVulkan`. -/
def initVulkan (cfg : Config) (w : World) (m : Members) : Outcome Unit :=
  createInstance cfg w m

/-- The `while` of `mainLoop`, entered when `k` readings of the close flag have
been taken: `none` when `fuel` tests do not reach a set flag. -/
def pollLoop (w : World) (window : Handle) : Nat → Nat → Option (List Call)
  | 0, _ => none
  | fuel + 1, k =>
    if w.glfwWindowShouldClose k then
      some [Call.glfwWindowShouldClose window]
    else
      (pollLoop w window fuel (k + 1)).map
        (fun rest => Call.glfwWindowShouldClose window :: Call.glfwPollEvents :: rest)

/-- The member function `mainLoop`. -/
def mainLoop (w : World) (m : Members) (fuel : Nat) : Option (Outcome Unit) :=
  (pollLoop w m.window fuel 0).map fun polls =>
    { trace := [Call.cout "entered main loop"] ++ polls ++ [Call.cout "exit main loop"],
      members := m,
      result := Except.ok () }

/-- The member function `cleanup`. -/
def cleanup (m : Members) : Outcome Unit :=
  { trace := [Call.vkDestroyInstance m.inst, Call.glfwDestroyWindow m.window,
              Call.glfwTerminate],
    members := m,
    result := Except.ok () }

/-- The member function `run`: the four phases in sequence, an exception ending
the sequence where it is thrown. -/
def run (cfg : Config) (w : World) (m : Members) (fuel : Nat) : Option (Outcome Unit) :=
  let o1 := initWindow cfg w m
  match o1.result with
  | Except.error e => some { trace := o1.trace, members := o1.members, result := Except.error e }
  | Except.ok () =>
    let o2 := initVulkan cfg w o1.members
    match o2.result with
    | Except.error e =>
      some { trace := o1.trace ++ o2.trace, members := o2.members, result := Except.error e }
    | Except.ok () =>
      match mainLoop w o2.members fuel with
      | none => none
      | some o3 =>
        let o4 := cleanup o3.members
        some { trace := o1.trace ++ o2.trace ++ o3.trace ++ o4.trace,
               members := o4.members,
               result := o4.result }

end EngineHandler

/-- The function `main`: the calls made and the exit status returned, `none`
when `fuel` does not suffice for the poll loop. -/
def main (cfg : EngineHandler.Config) (w : EngineHandler.World) (fuel : Nat) :
    Option (List EngineHandler.Call × Nat) :=
  match EngineHandler.run cfg w EngineHandler.Members.fresh fuel with
  | none => none
  | some o =>
    match o.result with
    | Except.ok () => some (o.trace, EngineHandler.EXIT_SUCCESS)
    | Except.error what =>
      some (o.trace ++ [EngineHandler.Call.cout what], EngineHandler.EXIT_FAILURE)

namespace EngineHandler

/-! ## Observations on traces -/

/-- A call of `glfwDestroyWindow`. -/
def Call.isDestroyWindow : Call → Bool
  | Call.glfwDestroyWindow _ => true
  | _ => false

/-- One of the three calls made by `cleanup`. -/
def Call.isTeardown : Call → Bool
  | Call.vkDestroyInstance _ => true
  | Call.glfwDestroyWindow _ => true
  | Call.glfwTerminate => true
  | _ => false

/-- A call of `glfwWindowShouldClose`. -/
def Call.isShouldClose : Call → Bool
  | Call.glfwWindowShouldClose _ => true
  | _ => false

/-- A call of `glfwPollEvents`. -/
def Call.isPollEvents : Call → Bool
  | Call.glfwPollEvents => true
  | _ => false

/-- The requests handed to `vkCreateInstance` in a trace, in order. -/
def requests : List Call → List VkInstanceCreateInfo
  | [] => []
  | Call.vkCreateInstance ci :: rest => ci :: requests rest
  | _ :: rest => requests rest

/-! ## Auxiliary descriptions of traces -/

/-- The names the outer loop reports: those of `requested`, in order, that are
not among `available`. -/
def missingLayers (requested available : List String) : List String :=
  requested.filter (fun r => decide (r ∉ available))

/-- The calls `createInstance` makes before it builds the request: those of the
layer check when diagnostics are enabled, none otherwise. -/
def negotiationCalls (cfg : Config) (w : World) : List Call :=
  if cfg.enableValidationLayers = true then (checkValidationLayerSupport cfg w).1 else []

/-- The calls of a poll loop that finds the close flag set at its test number
`n`, counted from 0: `n` rounds of test and poll, then the last test. -/
def pollRounds (window : Handle) : Nat → List Call
  | 0 => [Call.glfwWindowShouldClose window]
  | n + 1 => Call.glfwWindowShouldClose window :: Call.glfwPollEvents :: pollRounds window n

/-- The calls of a run up to the return of `mainLoop`, for a run whose instance
creation succeeds and whose close flag is first found set at test number `n`. -/
def callsBeforeCleanup (cfg : Config) (w : World) (n : Nat) : List Call :=
  [Call.glfwWindowHint GLFW_CLIENT_API GLFW_NO_API,
   Call.glfwWindowHint GLFW_RESIZABLE GLFW_FALSE,
   Call.glfwCreateWindow cfg.WINDOW_WT cfg.WINDOW_HT cfg.WINDOW_NAME] ++
  (negotiationCalls cfg w ++
    [Call.glfwGetRequiredInstanceExtensions, Call.vkCreateInstance (createinfo cfg w)]) ++
  ([Call.cout "entered main loop"] ++ pollRounds w.glfwCreateWindow n ++
    [Call.cout "exit main loop"])

/-! ## Worlds used as concrete instances -/

/-- World in which the driver reports the single layer `VK_LAYER_A`. -/
def worldOneLayer : World :=
  { glfwCreateWindow := some 1,
    available_layers := ["VK_LAYER_A"],
    glfwExtensions := ["VK_KHR_surface", "VK_KHR_win32_surface"],
    vkCreateInstance := fun _ => VK_SUCCESS,
    instanceHandle := 7,
    glfwWindowShouldClose := fun _ => true }

/-- World in which the driver reports every layer of the hard coded list. -/
def worldAllLayers : World :=
  { glfwCreateWindow := some 1,
    available_layers := validationLayers,
    glfwExtensions := ["VK_KHR_surface", "VK_KHR_win32_surface"],
    vkCreateInstance := fun _ => VK_SUCCESS,
    instanceHandle := 7,
    glfwWindowShouldClose := fun _ => true }

/-- World of the scenario with the available layers `VK_LAYER_A` and `VK_LAYER_B`. -/
def worldTwoLayers : World :=
  { glfwCreateWindow := some 1,
    available_layers := ["VK_LAYER_A", "VK_LAYER_B"],
    glfwExtensions := ["VK_KHR_surface", "VK_KHR_win32_surface"],
    vkCreateInstance := fun _ => VK_SUCCESS,
    instanceHandle := 7,
    glfwWindowShouldClose := fun _ => true }

/-- World in which the window is closed at the third test of the close flag. -/
def worldCloseAtThird : World :=
  { glfwCreateWindow := some 1,
    available_layers := validationLayers,
    glfwExtensions := ["VK_KHR_surface", "VK_KHR_win32_surface"],
    vkCreateInstance := fun _ => VK_SUCCESS,
    instanceHandle := 7,
    glfwWindowShouldClose := fun k => decide (2 ≤ k) }

/-- World in which the driver rejects every instance creation request. -/
def worldDriverRejects : World :=
  { glfwCreateWindow := some 1,
    available_layers := validationLayers,
    glfwExtensions := ["VK_KHR_surface", "VK_KHR_win32_surface"],
    vkCreateInstance := fun _ => -9,
    instanceHandle := 7,
    glfwWindowShouldClose := fun _ => true }

/-- World in which the window system returns no window. -/
def worldNoWindow : World :=
  { glfwCreateWindow := none,
    available_layers := validationLayers,
    glfwExtensions := [],
    vkCreateInstance := fun _ => VK_SUCCESS,
    instanceHandle := 7,
    glfwWindowShouldClose := fun _ => true }

/-! ## The layer check -/

theorem layerFound_eq_true_iff (layerName : String) (available : List String) :
    layerFound layerName available = true ↔ layerName ∈ available := by
  induction available with
  | nil => simp [layerFound]
  | cons a rest ih =>
    by_cases h : layerName = a
    · simp [layerFound, h]
    · simp [layerFound, h, ih]

theorem layerFound_eq_false_iff (layerName : String) (available : List String) :
    layerFound layerName available = false ↔ layerName ∉ available := by
  rw [← layerFound_eq_true_iff]
  cases layerFound layerName available <;> simp

theorem checkLoop_eq (available : List String) (requested : List String) :
    ∀ (status : Bool) (out : List Call),
      checkLoop available requested status out =
        (status && decide (∀ r ∈ requested, r ∈ available),
         out ++ (missingLayers requested available).map (fun r => Call.cout (notFoundLine r))) := by
  induction requested with
  | nil => intro status out; simp [checkLoop, missingLayers]
  | cons r rest ih =>
    intro status out
    by_cases h : r ∈ available
    · have hf : layerFound r available = true := (layerFound_eq_true_iff r available).2 h
      simp [checkLoop, ih, hf, h, missingLayers]
    · have hf : layerFound r available = false := (layerFound_eq_false_iff r available).2 h
      simp [checkLoop, ih, hf, h, missingLayers]

theorem checkValidationLayerSupport_status (cfg : Config) (w : World) :
    (checkValidationLayerSupport cfg w).2 =
      decide (∀ r ∈ cfg.validationLayers, r ∈ w.available_layers) := by
  simp [checkValidationLayerSupport, checkLoop_eq]

theorem checkValidationLayerSupport_trace (cfg : Config) (w : World) :
    (checkValidationLayerSupport cfg w).1 =
      [Call.vkEnumerateInstanceLayerProperties false,
       Call.vkEnumerateInstanceLayerProperties true] ++
      (missingLayers cfg.validationLayers w.available_layers).map
        (fun r => Call.cout (notFoundLine r)) ++
      (if (checkValidationLayerSupport cfg w).2 = true then []
       else w.available_layers.map (fun l => Call.cout (availableLine l))) := by
  simp only [checkValidationLayerSupport, checkLoop_eq]
  by_cases h : ∀ r ∈ cfg.validationLayers, r ∈ w.available_layers
  · have h2 : ¬ ∃ x ∈ cfg.validationLayers, x ∉ w.available_layers := by
      rintro ⟨x, hx, hn⟩
      exact hn (h x hx)
    simp [h, h2]
  · simp [h]

/-- C1: `checkValidationLayerSupport` returns true exactly when every requested
layer name is equal to some available layer name; an empty request always
passes; names differing only in letter case do not match. -/
theorem checkValidationLayerSupport_true_iff (cfg : Config) (w : World) :
    ((checkValidationLayerSupport cfg w).2 = true ↔
      ∀ r ∈ cfg.validationLayers, ∃ a ∈ w.available_layers, r = a) ∧
    (checkValidationLayerSupport { cfg with validationLayers := [] } w).2 = true ∧
    (checkValidationLayerSupport { cfg with validationLayers := ["VK_LAYER_A"] }
      { w with available_layers := ["vk_layer_a"] }).2 = false := by
  refine ⟨?_, ?_, ?_⟩
  · rw [checkValidationLayerSupport_status]
    simp
  · rw [checkValidationLayerSupport_status]
    simp
  · rw [checkValidationLayerSupport_status]
    simp

theorem notFoundLine_eq_iff (a b : String) :
    "layer " ++ a ++ " not found!" = "layer " ++ b ++ " not found!" ↔ a = b := by
  constructor
  · intro h
    have h2 := congrArg String.data h
    simp only [String.data_append] at h2
    exact String.ext (List.append_cancel_left (List.append_cancel_right h2))
  · intro h
    rw [h]

/-- C2: the calls of `checkValidationLayerSupport` are the two enumeration calls,
then, for each requested name that is not available, in the order and with the
multiplicity of the request, the line made of the word layer, the name and the
words not found, then, only when some name was missing, the listing of the
available layers; the line of a missing name determines that name. -/
theorem checkValidationLayerSupport_reports_all_missing (cfg : Config) (w : World) :
    (checkValidationLayerSupport cfg w).1 =
      [Call.vkEnumerateInstanceLayerProperties false,
       Call.vkEnumerateInstanceLayerProperties true] ++
      (cfg.validationLayers.filter (fun r => decide (r ∉ w.available_layers))).map
        (fun r => Call.cout ("layer " ++ r ++ " not found!")) ++
      (if (checkValidationLayerSupport cfg w).2 = true then []
       else w.available_layers.map (fun l => Call.cout ("\t" ++ l ++ " available"))) ∧
    (∀ a b : String,
      "layer " ++ a ++ " not found!" = "layer " ++ b ++ " not found!" ↔ a = b) ∧
    (checkValidationLayerSupport { cfg with validationLayers := ["VK_LAYER_MISSING"] }
      { w with available_layers := ["VK_LAYER_A"] }).1 =
      [Call.vkEnumerateInstanceLayerProperties false,
       Call.vkEnumerateInstanceLayerProperties true,
       Call.cout "layer VK_LAYER_MISSING not found!",
       Call.cout "\tVK_LAYER_A available"] :=
  ⟨checkValidationLayerSupport_trace cfg w, notFoundLine_eq_iff, rfl⟩

/-! ## Instance creation -/

theorem createInstance_of_check_failed (cfg : Config) (w : World) (m : Members)
    (hen : cfg.enableValidationLayers = true)
    (hck : (checkValidationLayerSupport cfg w).2 = false) :
    createInstance cfg w m =
      { trace := (checkValidationLayerSupport cfg w).1, members := m,
        result := Except.error layersUnavailable } := by
  simp [createInstance, hen, hck]

theorem createInstance_of_success (cfg : Config) (w : World) (m : Members)
    (h : cfg.enableValidationLayers = false ∨ (checkValidationLayerSupport cfg w).2 = true)
    (hr : w.vkCreateInstance (createinfo cfg w) = VK_SUCCESS) :
    createInstance cfg w m =
      { trace := negotiationCalls cfg w ++
          [Call.glfwGetRequiredInstanceExtensions, Call.vkCreateInstance (createinfo cfg w)],
        members := { m with inst := some w.instanceHandle },
        result := Except.ok () } := by
  cases hen : cfg.enableValidationLayers with
  | false => simp [createInstance, negotiationCalls, hen, hr]
  | true =>
    have hc : (checkValidationLayerSupport cfg w).2 = true := by
      rcases h with h | h
      · rw [hen] at h; cases h
      · exact h
    simp [createInstance, negotiationCalls, hen, hr, hc]

theorem createInstance_of_rejected (cfg : Config) (w : World) (m : Members)
    (h : cfg.enableValidationLayers = false ∨ (checkValidationLayerSupport cfg w).2 = true)
    (hr : w.vkCreateInstance (createinfo cfg w) ≠ VK_SUCCESS) :
    createInstance cfg w m =
      { trace := negotiationCalls cfg w ++
          [Call.glfwGetRequiredInstanceExtensions, Call.vkCreateInstance (createinfo cfg w)],
        members := m,
        result := Except.error instanceFailed } := by
  cases hen : cfg.enableValidationLayers with
  | false => simp [createInstance, negotiationCalls, hen, hr]
  | true =>
    have hc : (checkValidationLayerSupport cfg w).2 = true := by
      rcases h with h | h
      · rw [hen] at h; cases h
      · exact h
    simp [createInstance, negotiationCalls, hen, hr, hc]

theorem negotiation_cases (cfg : Config) (w : World) :
    (cfg.enableValidationLayers = true ∧ (checkValidationLayerSupport cfg w).2 = false) ∨
    (cfg.enableValidationLayers = false ∨ (checkValidationLayerSupport cfg w).2 = true) := by
  cases cfg.enableValidationLayers <;> cases (checkValidationLayerSupport cfg w).2 <;> simp

theorem createInstance_trace_of_pass (cfg : Config) (w : World) (m : Members)
    (h : cfg.enableValidationLayers = false ∨ (checkValidationLayerSupport cfg w).2 = true) :
    (createInstance cfg w m).trace =
      negotiationCalls cfg w ++
      [Call.glfwGetRequiredInstanceExtensions, Call.vkCreateInstance (createinfo cfg w)] := by
  by_cases hr : w.vkCreateInstance (createinfo cfg w) = VK_SUCCESS
  · rw [createInstance_of_success cfg w m h hr]
  · rw [createInstance_of_rejected cfg w m h hr]

theorem createInstance_ok_iff (cfg : Config) (w : World) (m : Members) :
    (createInstance cfg w m).result = Except.ok () ↔
      (cfg.enableValidationLayers = false ∨ (checkValidationLayerSupport cfg w).2 = true) ∧
      w.vkCreateInstance (createinfo cfg w) = VK_SUCCESS := by
  rcases negotiation_cases cfg w with ⟨hen, hck⟩ | h
  · rw [createInstance_of_check_failed cfg w m hen hck]
    simp [hen, hck]
  · by_cases hr : w.vkCreateInstance (createinfo cfg w) = VK_SUCCESS
    · rw [createInstance_of_success cfg w m h hr]
      simp [h, hr]
    · rw [createInstance_of_rejected cfg w m h hr]
      simp [hr]

theorem checkValidationLayerSupport_no_request (cfg : Config) (w : World)
    (ci : VkInstanceCreateInfo) :
    Call.vkCreateInstance ci ∉ (checkValidationLayerSupport cfg w).1 := by
  rw [checkValidationLayerSupport_trace]
  split <;> simp

theorem negotiationCalls_no_request (cfg : Config) (w : World) (ci : VkInstanceCreateInfo) :
    Call.vkCreateInstance ci ∉ negotiationCalls cfg w := by
  unfold negotiationCalls
  split
  · exact checkValidationLayerSupport_no_request cfg w ci
  · simp

theorem checkValidationLayerSupport_no_teardown (cfg : Config) (w : World) :
    (checkValidationLayerSupport cfg w).1.filter Call.isTeardown = [] := by
  rw [checkValidationLayerSupport_trace]
  split <;> simp [List.filter_eq_nil_iff, Call.isTeardown]

theorem negotiationCalls_no_teardown (cfg : Config) (w : World) :
    (negotiationCalls cfg w).filter Call.isTeardown = [] := by
  unfold negotiationCalls
  split
  · exact checkValidationLayerSupport_no_teardown cfg w
  · simp

theorem checkValidationLayerSupport_no_poll (cfg : Config) (w : World) :
    (checkValidationLayerSupport cfg w).1.filter Call.isPollEvents = [] := by
  rw [checkValidationLayerSupport_trace]
  split <;> simp [List.filter_eq_nil_iff, Call.isPollEvents]

theorem negotiationCalls_no_poll (cfg : Config) (w : World) :
    (negotiationCalls cfg w).filter Call.isPollEvents = [] := by
  unfold negotiationCalls
  split
  · exact checkValidationLayerSupport_no_poll cfg w
  · simp

/-! ## The sequence of phases -/

theorem run_of_createInstance_error (cfg : Config) (w : World) (m : Members) (fuel : Nat)
    (e : String)
    (h : (createInstance cfg w (initWindow cfg w m).members).result = Except.error e) :
    run cfg w m fuel =
      some { trace := (initWindow cfg w m).trace ++
               (createInstance cfg w (initWindow cfg w m).members).trace,
             members := (createInstance cfg w (initWindow cfg w m).members).members,
             result := Except.error e } := by
  simp only [run, initVulkan]
  have h1 : (initWindow cfg w m).result = Except.ok () := rfl
  rw [h1]
  simp only []
  rw [h]

theorem run_of_createInstance_ok (cfg : Config) (w : World) (m : Members) (fuel : Nat)
    (h : (createInstance cfg w (initWindow cfg w m).members).result = Except.ok ()) :
    run cfg w m fuel =
      (mainLoop w (createInstance cfg w (initWindow cfg w m).members).members fuel).map
        (fun o3 =>
          { trace := (initWindow cfg w m).trace ++
              (createInstance cfg w (initWindow cfg w m).members).trace ++ o3.trace ++
              (cleanup o3.members).trace,
            members := (cleanup o3.members).members,
            result := (cleanup o3.members).result }) := by
  simp only [run, initVulkan]
  have h1 : (initWindow cfg w m).result = Except.ok () := rfl
  rw [h1]
  simp only []
  rw [h]
  simp only []
  cases mainLoop w (createInstance cfg w (initWindow cfg w m).members).members fuel <;> rfl

end EngineHandler

theorem main_of_run_error (cfg : EngineHandler.Config) (w : EngineHandler.World) (fuel : Nat)
    (o : EngineHandler.Outcome Unit) (e : String)
    (h : EngineHandler.run cfg w EngineHandler.Members.fresh fuel = some o)
    (he : o.result = Except.error e) :
    main cfg w fuel =
      some (o.trace ++ [EngineHandler.Call.cout e], EngineHandler.EXIT_FAILURE) := by
  simp only [main]
  rw [h]
  simp only []
  rw [he]

theorem main_of_run_ok (cfg : EngineHandler.Config) (w : EngineHandler.World) (fuel : Nat)
    (o : EngineHandler.Outcome Unit)
    (h : EngineHandler.run cfg w EngineHandler.Members.fresh fuel = some o)
    (he : o.result = Except.ok ()) :
    main cfg w fuel = some (o.trace, EngineHandler.EXIT_SUCCESS) := by
  simp only [main]
  rw [h]
  simp only []
  rw [he]

namespace EngineHandler

/-- C3: with diagnostics enabled and a requested layer that is not available,
`createInstance` throws the unsupported layer error, no `vkCreateInstance` call
is made, the `instance` member is left as it was, and `main` ends with the
failure status without ever calling `vkCreateInstance`. -/
theorem createInstance_missing_layer_throws (cfg : Config) (w : World) (m : Members)
    (hen : cfg.enableValidationLayers = true)
    (hmiss : ∃ r ∈ cfg.validationLayers, r ∉ w.available_layers) :
    (createInstance cfg w m).result = Except.error layersUnavailable ∧
    (∀ ci, Call.vkCreateInstance ci ∉ (createInstance cfg w m).trace) ∧
    (createInstance cfg w m).members = m ∧
    (∀ fuel, ∃ tr, main cfg w fuel = some (tr, EXIT_FAILURE) ∧
      ∀ ci, Call.vkCreateInstance ci ∉ tr) := by
  have hck : (checkValidationLayerSupport cfg w).2 = false := by
    rw [checkValidationLayerSupport_status]
    simpa using hmiss
  have hall : ∀ m1, createInstance cfg w m1 =
      { trace := (checkValidationLayerSupport cfg w).1, members := m1,
        result := Except.error layersUnavailable } :=
    fun m1 => createInstance_of_check_failed cfg w m1 hen hck
  refine ⟨by rw [hall], ?_, by rw [hall], ?_⟩
  · intro ci
    rw [hall]
    exact checkValidationLayerSupport_no_request cfg w ci
  · intro fuel
    have hrun := run_of_createInstance_error cfg w Members.fresh fuel layersUnavailable
      (by rw [hall])
    refine ⟨_, main_of_run_error cfg w fuel _ layersUnavailable hrun rfl, ?_⟩
    intro ci
    rw [hall]
    have := checkValidationLayerSupport_no_request cfg w ci
    simp [initWindow, this]

/-- Witness of C3: the debug build in a world that offers only `VK_LAYER_A`. -/
theorem createInstance_missing_layer_throws_witness :
    debugConfig.enableValidationLayers = true ∧
    (∃ r ∈ debugConfig.validationLayers, r ∉ worldOneLayer.available_layers) ∧
    (createInstance debugConfig worldOneLayer Members.fresh).result =
      Except.error layersUnavailable ∧
    (∀ ci, Call.vkCreateInstance ci ∉
      (createInstance debugConfig worldOneLayer Members.fresh).trace) :=
  have h1 : debugConfig.enableValidationLayers = true := rfl
  have h2 : ∃ r ∈ debugConfig.validationLayers, r ∉ worldOneLayer.available_layers :=
    ⟨"VK_LAYER_NV_optimus", by decide, by decide⟩
  ⟨h1, h2,
    (createInstance_missing_layer_throws debugConfig worldOneLayer Members.fresh h1 h2).1,
    (createInstance_missing_layer_throws debugConfig worldOneLayer Members.fresh h1 h2).2.1⟩

/-- C4: with diagnostics disabled `createInstance` makes exactly two calls, the
query of the window system extensions and `vkCreateInstance`; it never calls
`vkEnumerateInstanceLayerProperties` and never throws the unsupported layer
error, whatever layers are available. -/
theorem createInstance_release_skips_check (cfg : Config) (w : World) (m : Members)
    (hen : cfg.enableValidationLayers = false) :
    (createInstance cfg w m).trace =
      [Call.glfwGetRequiredInstanceExtensions, Call.vkCreateInstance (createinfo cfg w)] ∧
    (∀ fill, Call.vkEnumerateInstanceLayerProperties fill ∉ (createInstance cfg w m).trace) ∧
    (createInstance cfg w m).result ≠ Except.error layersUnavailable ∧
    (createInstance cfg w m).result =
      (if w.vkCreateInstance (createinfo cfg w) = VK_SUCCESS then Except.ok ()
       else Except.error instanceFailed) := by
  have htr := createInstance_trace_of_pass cfg w m (Or.inl hen)
  have hneg : negotiationCalls cfg w = [] := by simp [negotiationCalls, hen]
  rw [hneg] at htr
  have hres : (createInstance cfg w m).result =
      (if w.vkCreateInstance (createinfo cfg w) = VK_SUCCESS then Except.ok ()
       else Except.error instanceFailed) := by
    by_cases hr : w.vkCreateInstance (createinfo cfg w) = VK_SUCCESS
    · rw [createInstance_of_success cfg w m (Or.inl hen) hr]; simp [hr]
    · rw [createInstance_of_rejected cfg w m (Or.inl hen) hr]; simp [hr]
  refine ⟨by simpa using htr, ?_, ?_, hres⟩
  · intro fill
    rw [htr]
    simp
  · rw [hres]
    split
    · simp
    · simp [instanceFailed, layersUnavailable]

/-- Witness of C4: the release build in a world that offers only `VK_LAYER_A`. -/
theorem createInstance_release_skips_check_witness :
    releaseConfig.enableValidationLayers = false ∧
    (createInstance releaseConfig worldOneLayer Members.fresh).trace =
      [Call.glfwGetRequiredInstanceExtensions,
       Call.vkCreateInstance (createinfo releaseConfig worldOneLayer)] ∧
    (createInstance releaseConfig worldOneLayer Members.fresh).result = Except.ok () :=
  ⟨rfl, (createInstance_release_skips_check releaseConfig worldOneLayer Members.fresh rfl).1,
    rfl⟩

/-! ## The request handed to the driver -/

theorem createinfo_extensions (cfg : Config) (w : World) :
    (createinfo cfg w).ppEnabledExtensionNames = w.glfwExtensions ∧
    (createinfo cfg w).enabledExtensionCount = w.glfwExtensions.length := by
  cases h : cfg.enableValidationLayers <;> simp [createinfo, h]

theorem createinfo_enabledLayerCount (cfg : Config) (w : World) :
    (createinfo cfg w).enabledLayerCount = 0 := by
  cases h : cfg.enableValidationLayers <;> simp [createinfo, h]

theorem requests_append (l1 l2 : List Call) :
    requests (l1 ++ l2) = requests l1 ++ requests l2 := by
  induction l1 with
  | nil => rfl
  | cons c rest ih => cases c <;> simp [requests, ih]

theorem requests_eq_nil (l : List Call) (h : ∀ ci, Call.vkCreateInstance ci ∉ l) :
    requests l = [] := by
  induction l with
  | nil => rfl
  | cons c rest ih =>
    have hrest : ∀ ci, Call.vkCreateInstance ci ∉ rest :=
      fun ci hm => h ci (List.mem_cons_of_mem _ hm)
    cases c with
    | vkCreateInstance ci => exact absurd (List.mem_cons_self _ _) (h ci)
    | _ => simp [requests, ih hrest]

/-- C5 (code evaluated): in the debug build with all fourteen requested layers
available the check passes and `vkCreateInstance` is called once, with a request
whose `enabledLayerCount` is 0, so that no layer is enabled although the array
pointer refers to the fourteen names; the same holds for the request
`VK_LAYER_A` against the available layers `VK_LAYER_A`, `VK_LAYER_B`, and the
count of the request is 0 in every configuration and world. -/
theorem createInstance_debug_enables_no_layer :
    (checkValidationLayerSupport debugConfig worldAllLayers).2 = true ∧
    requests (createInstance debugConfig worldAllLayers Members.fresh).trace =
      [createinfo debugConfig worldAllLayers] ∧
    (createinfo debugConfig worldAllLayers).enabledLayerCount = 0 ∧
    (createinfo debugConfig worldAllLayers).ppEnabledLayerNames = validationLayers ∧
    (createinfo debugConfig worldAllLayers).enabledLayers = [] ∧
    debugConfig.validationLayers.length = 14 ∧
    (checkValidationLayerSupport { debugConfig with validationLayers := ["VK_LAYER_A"] }
      worldTwoLayers).2 = true ∧
    (requests (createInstance { debugConfig with validationLayers := ["VK_LAYER_A"] }
      worldTwoLayers Members.fresh).trace).map VkInstanceCreateInfo.enabledLayers = [[]] ∧
    (∀ (cfg : Config) (w : World), (createinfo cfg w).enabledLayerCount = 0) := by
  refine ⟨by decide, by decide, by decide, by decide, by decide, by decide, by decide,
    by decide, createinfo_enabledLayerCount⟩

/-- C6: whenever `createInstance` gets past the layer check, in the debug as in
the release build, it calls `vkCreateInstance` once, and the extension array and
count of that request are exactly the list reported by the window system; the
unused helper `getRequiredExtensions` would, with diagnostics enabled, return
that list followed by the debug report extension, which the request lacks. -/
theorem createInstance_extensions_are_window_system (cfg : Config) (w : World) (m : Members)
    (h : cfg.enableValidationLayers = false ∨ (checkValidationLayerSupport cfg w).2 = true) :
    requests (createInstance cfg w m).trace = [createinfo cfg w] ∧
    (createinfo cfg w).ppEnabledExtensionNames = w.glfwExtensions ∧
    (createinfo cfg w).enabledExtensionCount = w.glfwExtensions.length ∧
    (createinfo cfg w).enabledExtensions = w.glfwExtensions ∧
    (getRequiredExtensions cfg w).2 =
      (if cfg.enableValidationLayers = true
       then w.glfwExtensions ++ [VK_EXT_DEBUG_REPORT_EXTENSION_NAME] else w.glfwExtensions) ∧
    (cfg.enableValidationLayers = true →
      (createinfo cfg w).ppEnabledExtensionNames ≠ (getRequiredExtensions cfg w).2) := by
  obtain ⟨h1, h2⟩ := createinfo_extensions cfg w
  refine ⟨?_, h1, h2, ?_, ?_, ?_⟩
  · rw [createInstance_trace_of_pass cfg w m h, requests_append,
      requests_eq_nil _ (negotiationCalls_no_request cfg w)]
    rfl
  · simp [VkInstanceCreateInfo.enabledExtensions, h1, h2]
  · cases hen : cfg.enableValidationLayers <;> simp [getRequiredExtensions, hen]
  · intro hen
    rw [h1]
    simp [getRequiredExtensions, hen]

/-- Witness of C6: the debug build in a world that offers all requested layers. -/
theorem createInstance_extensions_are_window_system_witness :
    (debugConfig.enableValidationLayers = false ∨
      (checkValidationLayerSupport debugConfig worldAllLayers).2 = true) ∧
    requests (createInstance debugConfig worldAllLayers Members.fresh).trace =
      [createinfo debugConfig worldAllLayers] ∧
    (createinfo debugConfig worldAllLayers).ppEnabledExtensionNames =
      ["VK_KHR_surface", "VK_KHR_win32_surface"] ∧
    (createinfo debugConfig worldAllLayers).enabledExtensionCount = 2 ∧
    (getRequiredExtensions debugConfig worldAllLayers).2 =
      ["VK_KHR_surface", "VK_KHR_win32_surface", "VK_EXT_debug_report"] :=
  have h : debugConfig.enableValidationLayers = false ∨
      (checkValidationLayerSupport debugConfig worldAllLayers).2 = true :=
    Or.inr (by decide)
  ⟨h,
    (createInstance_extensions_are_window_system debugConfig worldAllLayers Members.fresh h).1,
    (createInstance_extensions_are_window_system debugConfig worldAllLayers Members.fresh h).2.1,
    (createInstance_extensions_are_window_system debugConfig worldAllLayers Members.fresh h).2.2.1,
    by decide⟩

/-! ## The poll loop -/

theorem pollLoop_eq (w : World) (window : Handle) :
    ∀ (n fuel k : Nat), (∀ j < n, w.glfwWindowShouldClose (k + j) = false) →
      w.glfwWindowShouldClose (k + n) = true → n < fuel →
      pollLoop w window fuel k = some (pollRounds window n) := by
  intro n
  induction n with
  | zero =>
    intro fuel k _ htrue hfuel
    obtain ⟨f, rfl⟩ : ∃ f, fuel = f + 1 := ⟨fuel - 1, by omega⟩
    have h0 : w.glfwWindowShouldClose k = true := by simpa using htrue
    simp [pollLoop, pollRounds, h0]
  | succ n ih =>
    intro fuel k hfalse htrue hfuel
    obtain ⟨f, rfl⟩ : ∃ f, fuel = f + 1 := ⟨fuel - 1, by omega⟩
    have h0 : w.glfwWindowShouldClose k = false := by
      have := hfalse 0 (by omega)
      simpa using this
    have hrec := ih f (k + 1)
      (fun j hj => by
        have := hfalse (j + 1) (by omega)
        rw [show k + 1 + j = k + (j + 1) by omega]
        exact this)
      (by rw [show k + 1 + n = k + (n + 1) by omega]; exact htrue)
      (by omega)
    simp [pollLoop, pollRounds, h0, hrec]

theorem pollLoop_none_of_never (w : World) (window : Handle)
    (hnever : ∀ j, w.glfwWindowShouldClose j = false) :
    ∀ (fuel k : Nat), pollLoop w window fuel k = none := by
  intro fuel
  induction fuel with
  | zero => intro k; rfl
  | succ f ih => intro k; simp [pollLoop, hnever k, ih (k + 1)]

theorem pollRounds_countP_shouldClose (window : Handle) (n : Nat) :
    (pollRounds window n).countP Call.isShouldClose = n + 1 := by
  induction n with
  | zero => simp [pollRounds, Call.isShouldClose]
  | succ n ih => simp [pollRounds, Call.isShouldClose, Call.isPollEvents, ih]

theorem pollRounds_countP_pollEvents (window : Handle) (n : Nat) :
    (pollRounds window n).countP Call.isPollEvents = n := by
  induction n with
  | zero => simp [pollRounds, Call.isPollEvents]
  | succ n ih => simp [pollRounds, Call.isPollEvents, ih]

theorem pollRounds_no_teardown (window : Handle) (n : Nat) :
    (pollRounds window n).filter Call.isTeardown = [] := by
  induction n with
  | zero => simp [pollRounds, Call.isTeardown]
  | succ n ih => simp [pollRounds, Call.isTeardown, ih]

theorem mainLoop_eq (w : World) (m : Members) (n fuel : Nat)
    (hfalse : ∀ j < n, w.glfwWindowShouldClose j = false)
    (htrue : w.glfwWindowShouldClose n = true) (hfuel : n < fuel) :
    mainLoop w m fuel =
      some { trace := [Call.cout "entered main loop"] ++ pollRounds m.window n ++
               [Call.cout "exit main loop"],
             members := m, result := Except.ok () } := by
  have h := pollLoop_eq w m.window n fuel 0 (by simpa using hfalse) (by simpa using htrue) hfuel
  simp [mainLoop, h]

theorem callsBeforeCleanup_no_teardown (cfg : Config) (w : World) (n : Nat) :
    (callsBeforeCleanup cfg w n).filter Call.isTeardown = [] := by
  simp [callsBeforeCleanup, List.filter_append, negotiationCalls_no_teardown,
    pollRounds_no_teardown, Call.isTeardown]

theorem callsBeforeCleanup_countP_pollEvents (cfg : Config) (w : World) (n : Nat) :
    (callsBeforeCleanup cfg w n).countP Call.isPollEvents = n := by
  have h : (negotiationCalls cfg w).countP Call.isPollEvents = 0 := by
    rw [List.countP_eq_length_filter, negotiationCalls_no_poll]
    rfl
  simp [callsBeforeCleanup, List.countP_append, h, pollRounds_countP_pollEvents,
    Call.isPollEvents]

theorem run_complete (cfg : Config) (w : World) (m : Members) (n fuel : Nat)
    (hok : (createInstance cfg w (initWindow cfg w m).members).result = Except.ok ())
    (hfalse : ∀ j < n, w.glfwWindowShouldClose j = false)
    (htrue : w.glfwWindowShouldClose n = true) (hfuel : n < fuel) :
    run cfg w m fuel =
      some { trace := callsBeforeCleanup cfg w n ++
               [Call.vkDestroyInstance (some w.instanceHandle),
                Call.glfwDestroyWindow w.glfwCreateWindow, Call.glfwTerminate],
             members := { window := w.glfwCreateWindow, inst := some w.instanceHandle },
             result := Except.ok () } := by
  rw [run_of_createInstance_ok cfg w m fuel hok]
  obtain ⟨hpass, hr⟩ := (createInstance_ok_iff cfg w _).1 hok
  rw [createInstance_of_success cfg w _ hpass hr]
  rw [mainLoop_eq w _ n fuel hfalse htrue hfuel]
  simp [initWindow, cleanup, callsBeforeCleanup]

/-! ## Teardown -/

/-- C7: in a run whose instance creation succeeds and whose close flag is
eventually found set, `run` returns normally and its trace is a part without any
teardown call followed by exactly `vkDestroyInstance`, `glfwDestroyWindow`,
`glfwTerminate`, in this order: each of the three occurs once, the instance is
destroyed before the window and the window before the window system shutdown. -/
theorem run_teardown_order (cfg : Config) (w : World) (m : Members) (n fuel : Nat)
    (hok : (createInstance cfg w (initWindow cfg w m).members).result = Except.ok ())
    (hfalse : ∀ j < n, w.glfwWindowShouldClose j = false)
    (htrue : w.glfwWindowShouldClose n = true) (hfuel : n < fuel) :
    ∃ o pre, run cfg w m fuel = some o ∧ o.result = Except.ok () ∧
      o.trace = pre ++ [Call.vkDestroyInstance (some w.instanceHandle),
                        Call.glfwDestroyWindow w.glfwCreateWindow, Call.glfwTerminate] ∧
      pre.filter Call.isTeardown = [] ∧
      o.trace.filter Call.isTeardown =
        [Call.vkDestroyInstance (some w.instanceHandle),
         Call.glfwDestroyWindow w.glfwCreateWindow, Call.glfwTerminate] := by
  refine ⟨_, callsBeforeCleanup cfg w n, run_complete cfg w m n fuel hok hfalse htrue hfuel,
    rfl, rfl, callsBeforeCleanup_no_teardown cfg w n, ?_⟩
  simp only [List.filter_append, callsBeforeCleanup_no_teardown]
  simp [Call.isTeardown]

/-- Witness of C7: the debug build, all layers available, window closed at the third test. -/
theorem run_teardown_order_witness :
    (createInstance debugConfig worldCloseAtThird
      (initWindow debugConfig worldCloseAtThird Members.fresh).members).result = Except.ok () ∧
    (∀ j < 2, worldCloseAtThird.glfwWindowShouldClose j = false) ∧
    worldCloseAtThird.glfwWindowShouldClose 2 = true ∧
    ∃ o pre, run debugConfig worldCloseAtThird Members.fresh 3 = some o ∧
      o.result = Except.ok () ∧
      o.trace = pre ++ [Call.vkDestroyInstance (some 7), Call.glfwDestroyWindow (some 1),
                        Call.glfwTerminate] ∧
      pre.filter Call.isTeardown = [] ∧
      o.trace.filter Call.isTeardown =
        [Call.vkDestroyInstance (some 7), Call.glfwDestroyWindow (some 1),
         Call.glfwTerminate] :=
  ⟨rfl, by decide, by decide,
    run_teardown_order debugConfig worldCloseAtThird Members.fresh 2 3
      rfl (by decide) (by decide) (by decide)⟩

/-- C10: when the close flag is first found set at test number `n` (counted from
0), `mainLoop` returns after `n + 1` calls of `glfwWindowShouldClose` and `n`
calls of `glfwPollEvents`, alternating; when the flag is set at the first test
and instance creation succeeded, `main` makes no `glfwPollEvents` call, makes the
three teardown calls once each, and returns `EXIT_SUCCESS`. -/
theorem mainLoop_polls_until_close (cfg : Config) (w : World) (m : Members) (n fuel : Nat)
    (hfalse : ∀ j < n, w.glfwWindowShouldClose j = false)
    (htrue : w.glfwWindowShouldClose n = true) (hfuel : n < fuel) :
    (∃ o, mainLoop w m fuel = some o ∧
      o.trace = [Call.cout "entered main loop"] ++ pollRounds m.window n ++
        [Call.cout "exit main loop"] ∧
      o.trace.countP Call.isShouldClose = n + 1 ∧
      o.trace.countP Call.isPollEvents = n ∧
      o.result = Except.ok () ∧ o.members = m) ∧
    (n = 0 →
      (createInstance cfg w (initWindow cfg w Members.fresh).members).result = Except.ok () →
      ∃ tr, main cfg w fuel = some (tr, EXIT_SUCCESS) ∧
        tr.countP Call.isPollEvents = 0 ∧
        tr.filter Call.isTeardown =
          [Call.vkDestroyInstance (some w.instanceHandle),
           Call.glfwDestroyWindow w.glfwCreateWindow, Call.glfwTerminate]) := by
  constructor
  · refine ⟨_, mainLoop_eq w m n fuel hfalse htrue hfuel, rfl, ?_, ?_, rfl, rfl⟩
    · simp [List.countP_append, pollRounds_countP_shouldClose, Call.isShouldClose]
    · simp [List.countP_append, pollRounds_countP_pollEvents, Call.isPollEvents]
  · intro hn hok
    subst hn
    have hrun := run_complete cfg w Members.fresh 0 fuel hok hfalse htrue hfuel
    refine ⟨_, main_of_run_ok cfg w fuel _ hrun rfl, ?_, ?_⟩
    · simp only [List.countP_append, callsBeforeCleanup_countP_pollEvents]
      simp [Call.isPollEvents]
    · simp only [List.filter_append, callsBeforeCleanup_no_teardown]
      simp [Call.isTeardown]

/-- Witness of C10: the flag is first set at the third test; and, in a world
where it is set at once, `main` polls no event and succeeds. -/
theorem mainLoop_polls_until_close_witness :
    (∀ j < 2, worldCloseAtThird.glfwWindowShouldClose j = false) ∧
    worldCloseAtThird.glfwWindowShouldClose 2 = true ∧
    (∃ o, mainLoop worldCloseAtThird Members.fresh 3 = some o ∧
      o.trace.countP Call.isShouldClose = 3 ∧ o.trace.countP Call.isPollEvents = 2) ∧
    (∃ tr, main debugConfig worldAllLayers 1 = some (tr, EXIT_SUCCESS) ∧
      tr.countP Call.isPollEvents = 0 ∧
      tr.filter Call.isTeardown =
        [Call.vkDestroyInstance (some 7), Call.glfwDestroyWindow (some 1),
         Call.glfwTerminate]) :=
  ⟨by decide, by decide,
    (mainLoop_polls_until_close debugConfig worldCloseAtThird Members.fresh 2 3
      (by decide) (by decide) (by decide)).1.elim
      (fun o h => ⟨o, h.1, h.2.2.1, h.2.2.2.1⟩),
    (mainLoop_polls_until_close debugConfig worldAllLayers Members.fresh 0 1
      (by decide) (by decide) (by decide)).2 rfl rfl⟩

/-! ## Failure paths -/

/-- C8 (code evaluated): in the debug build with a created window and only
`VK_LAYER_A` available, `main` returns `EXIT_FAILURE` after a trace that contains
the `glfwCreateWindow` call and no teardown call at all, so the window is never
destroyed; the same holds for the scenario request `VK_LAYER_MISSING`, and when
the layer check passes but the driver rejects the instance creation. -/
theorem main_failure_leaves_window :
    (∃ tr, main debugConfig worldOneLayer 1 = some (tr, EXIT_FAILURE) ∧
      Call.glfwCreateWindow 800 600 "Bored" ∈ tr ∧
      tr.filter Call.isDestroyWindow = [] ∧ tr.filter Call.isTeardown = []) ∧
    (∃ tr, main { debugConfig with validationLayers := ["VK_LAYER_MISSING"] } worldOneLayer 1 =
        some (tr, EXIT_FAILURE) ∧
      Call.cout (notFoundLine "VK_LAYER_MISSING") ∈ tr ∧
      tr.filter Call.isDestroyWindow = [] ∧ tr.filter Call.isTeardown = []) ∧
    (∃ tr, main debugConfig worldDriverRejects 1 = some (tr, EXIT_FAILURE) ∧
      Call.glfwCreateWindow 800 600 "Bored" ∈ tr ∧
      tr.filter Call.isDestroyWindow = [] ∧ tr.filter Call.isTeardown = []) := by
  refine ⟨⟨_, rfl, ?_, ?_, ?_⟩, ⟨_, rfl, ?_, ?_, ?_⟩, ⟨_, rfl, ?_, ?_, ?_⟩⟩ <;> decide

/-- C9 (code evaluated): when `glfwCreateWindow` returns `NULL`, `initWindow`
throws nothing and stores the null handle; `initVulkan` then enumerates the
layers and calls `vkCreateInstance`; with a driver that accepts the request and
a close flag reported as set, `main` returns `EXIT_SUCCESS`. -/
theorem main_null_window_goes_on :
    (initWindow debugConfig worldNoWindow Members.fresh).result = Except.ok () ∧
    (initWindow debugConfig worldNoWindow Members.fresh).members.window = none ∧
    Call.vkEnumerateInstanceLayerProperties true ∈
      (initVulkan debugConfig worldNoWindow
        (initWindow debugConfig worldNoWindow Members.fresh).members).trace ∧
    Call.vkCreateInstance (createinfo debugConfig worldNoWindow) ∈
      (initVulkan debugConfig worldNoWindow
        (initWindow debugConfig worldNoWindow Members.fresh).members).trace ∧
    (∃ tr, main debugConfig worldNoWindow 1 = some (tr, EXIT_SUCCESS) ∧
      Call.vkEnumerateInstanceLayerProperties true ∈ tr ∧
      Call.vkCreateInstance (createinfo debugConfig worldNoWindow) ∈ tr ∧
      Call.glfwWindowShouldClose none ∈ tr) := by
  refine ⟨rfl, rfl, by decide, by decide, ⟨_, rfl, by decide, by decide, by decide⟩⟩

end EngineHandler

end VulkanApplication1
